import Mathlib

/-!
# Verification of the Mock OpenCode chat server

Shallow embedding of `src/mock_opencode_server.py`: an in-memory HTTP server
holding two module-level dictionaries (`sessions` and `messages`), with
operations `create_session`, `send_prompt` (which streams a synthetic
assistant reply as SSE chunks), `get_messages` and `list_sessions`.

Modelling decisions:
* Python dicts are association lists `List (Nat × α)` preserving insertion
  order (as Python dicts do); keys are the session identifiers.
* `uuid.uuid4()` is modelled as a fresh-identifier supply: the server state
  carries a counter `nextUuid`, and each call returns the counter and bumps
  it.  Identifiers are `Nat`; the Python uuid string for id `n` is rendered
  as `toString n` where the code interpolates it into text.
* `time.time()` is modelled as a logical clock `clock` in the state that is
  bumped on every read, so successive timestamps are strictly increasing.
* JSON request bodies are modelled structurally: `Option` for an absent
  body, `Option` fields for absent keys (`.get` with default).
* HTTP error responses `({'error': s}, status)` are modelled by
  `Resp.err s status`; success bodies by `Resp.ok`.
* `str.split()` (split on whitespace runs, dropping empty pieces) is
  modelled by `pySplit`, with `Char.isWhitespace` as the whitespace test.
* The SSE generator is lazy in Python but is drained exactly once per
  request before the handler completes; it is modelled as the eager list
  of chunks it yields.
-/

/-- Association-list lookup, mirroring Python `d.get(k)` / `d[k]`. -/
def dictGet {α : Type} : List (Nat × α) → Nat → Option α
  | [], _ => none
  | (k, v) :: d, key => if k = key then some v else dictGet d key

/-- Association-list membership, mirroring Python `k in d`. -/
def dictHas {α : Type} : List (Nat × α) → Nat → Bool
  | [], _ => false
  | (k, _) :: d, key => if k = key then true else dictHas d key

/-- Association-list assignment, mirroring Python `d[k] = v`: overwrite the
entry in place when the key is present, append a new entry otherwise. -/
def dictSet {α : Type} : List (Nat × α) → Nat → α → List (Nat × α)
  | [], key, v => [(key, v)]
  | (k, w) :: d, key, v =>
    if k = key then (k, v) :: d else (k, w) :: dictSet d key v

/-- In-place append to the list stored at a key, mirroring Python
`d[k].append(m)` (a no-op when the key is absent; the code only reaches it
with a present key). -/
def dictAppendAt {α : Type} : List (Nat × List α) → Nat → α → List (Nat × List α)
  | [], _, _ => []
  | (k, l) :: d, key, m =>
    if k = key then (k, l ++ [m]) :: d else (k, l) :: dictAppendAt d key m

/-- The keys of an association list, in insertion order. -/
def keys {α : Type} (d : List (Nat × α)) : List Nat := d.map (·.1)

/-- A chat message as stored in the `messages` dictionary:
`{'id': ..., 'role': ..., 'content': ..., 'timestamp': ...}`. -/
structure Message where
  id : Nat
  role : String
  content : String
  timestamp : Nat
  deriving Repr, DecidableEq

/-- A session object as stored in the `sessions` dictionary:
`{'id': ..., 'title': ..., 'created_at': ..., 'messages': []}`. -/
structure Session where
  id : Nat
  title : String
  created_at : Nat
  msgs : List Message
  deriving Repr, DecidableEq

/-- One SSE chunk yielded by `generate_stream`:
`{'id': ..., 'content': ..., 'role': ..., 'timestamp': ..., 'is_chunk': ...}`. -/
structure Chunk where
  id : Nat
  content : String
  role : String
  timestamp : Nat
  is_chunk : Bool
  deriving Repr, DecidableEq

/-- One element of the `parts` array of a prompt body; both fields are read
with `part.get(...)`, so each may be absent. -/
structure MsgPart where
  type : Option String
  text : Option String
  deriving Repr, DecidableEq

/-- A parsed prompt request body; `parts = none` models a JSON body lacking
the `'parts'` key. -/
structure PromptBody where
  parts : Option (List MsgPart)
  deriving Repr, DecidableEq

/-- An HTTP handler outcome: a success value, or `({'error': error}, status)`. -/
inductive Resp (α : Type) where
  | ok (value : α)
  | err (error : String) (status : Nat)
  deriving Repr, DecidableEq

/-- The whole server state: the two module-level dictionaries plus the
modelled uuid supply and clock. -/
structure ServerState where
  sessions : List (Nat × Session)
  messages : List (Nat × List Message)
  nextUuid : Nat
  clock : Nat
  deriving Repr, DecidableEq

/-- The state at server start: both dictionaries empty. -/
def initState : ServerState :=
  { sessions := [], messages := [], nextUuid := 0, clock := 0 }

/-- Response body of `create_session`: `{'id': ..., 'title': ..., 'created_at': ...}`
(note: no `messages` field). -/
structure CreateResponse where
  id : Nat
  title : String
  created_at : Nat
  deriving Repr, DecidableEq

/-- `create_session`: `data = request.get_json() or {}`;
`title = data.get('title', 'New Chat Session')`; a fresh uuid and the current
time; stores the session object (with an empty `messages` list inside it) in
`sessions` and an empty list in `messages`. `titleOpt = none` covers both an
absent body and a body without a `'title'` key. -/
def create_session (σ : ServerState) (titleOpt : Option String) :
    CreateResponse × ServerState :=
  let session_id := σ.nextUuid
  let now := σ.clock
  let session : Session :=
    { id := session_id
      title := titleOpt.getD "New Chat Session"
      created_at := now
      msgs := [] }
  (⟨session_id, session.title, now⟩,
    { sessions := dictSet σ.sessions session_id session
      messages := dictSet σ.messages session_id []
      nextUuid := σ.nextUuid + 1
      clock := σ.clock + 1 })

/-- The synthetic reply text built by `send_prompt`:
`f"I received your message: '{message_content}'. This is a mock AI response
for testing purposes. The message was sent to session {session_id}."` -/
def aiResponseContent (message_content : String) (session_id : Nat) : String :=
  "I received your message: '" ++ message_content ++
    "'. This is a mock AI response for testing purposes. The message was sent to session " ++
    toString session_id ++ "."

/-- The loop extracting the user text:
`for part in data['parts']: if part.get('type') == 'text':
message_content += part.get('text', '')`. -/
def extractText (parts : List MsgPart) : String :=
  parts.foldl
    (fun acc part =>
      if part.type = some "text" then acc ++ part.text.getD "" else acc) ""

/-- Python `str.split()` on a list of characters: split on whitespace runs,
drop empty pieces; `acc` holds the current in-progress word reversed. -/
def pySplitAux : List Char → List Char → List String
  | [], acc => if acc.isEmpty then [] else [String.mk acc.reverse]
  | c :: rest, acc =>
    if c.isWhitespace then
      if acc.isEmpty then pySplitAux rest []
      else String.mk acc.reverse :: pySplitAux rest []
    else pySplitAux rest (c :: acc)

/-- Python `s.split()`. -/
def pySplit (s : String) : List String := pySplitAux s.data []

/-- The body of `generate_stream`'s `for i, word in enumerate(words)` loop:
each chunk carries the shared reply-message id, `word + ' '`, role
`'assistant'`, the current time, and `is_chunk = i < len(words) - 1`.
`i` is the current index, `total` the length of the full word list, `t` the
clock value at the first iteration. -/
def streamChunksFrom (ai_message_id : Nat) (t total : Nat) :
    Nat → List String → List Chunk
  | _, [] => []
  | i, word :: rest =>
    { id := ai_message_id
      content := word ++ " "
      role := "assistant"
      timestamp := t + i
      is_chunk := decide (i < total - 1) } ::
      streamChunksFrom ai_message_id t total (i + 1) rest

/-- `generate_stream`: split the reply into words and emit one chunk per
word. -/
def generate_stream (ai_message_id : Nat) (reply : String) (t : Nat) :
    List Chunk :=
  let words := pySplit reply
  streamChunksFrom ai_message_id t words.length 0 words

/-- `send_prompt(session_id)`: 404 when the session is unknown, 400 when the
body is absent or lacks `'parts'`; otherwise append the user message to
`messages[session_id]` and stream the synthetic reply.  The returned value on
success is the list of SSE chunks the generator yields. -/
def send_prompt (σ : ServerState) (session_id : Nat) (body : Option PromptBody) :
    Resp (List Chunk) × ServerState :=
  if dictHas σ.sessions session_id = false then
    (Resp.err "Session not found" 404, σ)
  else
    match body with
    | none => (Resp.err "Invalid request format" 400, σ)
    | some data =>
      match data.parts with
      | none => (Resp.err "Invalid request format" 400, σ)
      | some parts =>
        let message_content := extractText parts
        let user_message : Message :=
          { id := σ.nextUuid
            role := "user"
            content := message_content
            timestamp := σ.clock }
        let reply := aiResponseContent message_content session_id
        let ai_message_id := σ.nextUuid + 1
        let chunks := generate_stream ai_message_id reply (σ.clock + 1)
        (Resp.ok chunks,
          { sessions := σ.sessions
            messages := dictAppendAt σ.messages session_id user_message
            nextUuid := σ.nextUuid + 2
            clock := σ.clock + 1 + chunks.length })

/-- `get_messages(session_id)`: 404 when unknown, otherwise
`{'messages': messages.get(session_id, [])}`.  A pure read. -/
def get_messages (σ : ServerState) (session_id : Nat) : Resp (List Message) :=
  if dictHas σ.sessions session_id = false then
    Resp.err "Session not found" 404
  else
    Resp.ok ((dictGet σ.messages session_id).getD [])

/-- `list_sessions`: `{'sessions': list(sessions.values())}`.  A pure read. -/
def list_sessions (σ : ServerState) : List Session :=
  σ.sessions.map (·.2)

/-- States reachable from server start by the two mutating handlers
(`get_messages` and `list_sessions` are pure reads and do not change the
state). -/
inductive Reachable : ServerState → Prop
  | init : Reachable initState
  | create (σ : ServerState) (titleOpt : Option String) :
      Reachable σ → Reachable (create_session σ titleOpt).2
  | prompt (σ : ServerState) (session_id : Nat) (body : Option PromptBody) :
      Reachable σ → Reachable (send_prompt σ session_id body).2

/-- A default chunk for indexed access (`is_chunk` is `false`, matching the
out-of-range reading of the indexed `is_chunk` property). -/
def dummyChunk : Chunk :=
  { id := 0, content := "", role := "", timestamp := 0, is_chunk := false }

/-- The concatenation of the contents of a streamed response, empty on an
error response. -/
def streamedText : Resp (List Chunk) → String
  | Resp.ok chunks => String.join (chunks.map Chunk.content)
  | Resp.err _ _ => ""

/-- The words of the synthetic reply for a given prompt body and session. -/
def replyWords (parts : List MsgPart) (session_id : Nat) : List String :=
  pySplit (aiResponseContent (extractText parts) session_id)

/-- Spec-side description of the stored user-message content, written from
the spec's words: the concatenation, in order, of the `text` fields of
exactly those parts whose `type` equals `'text'`; parts of any other type
contribute nothing, and a text part missing its `text` field contributes the
empty string.  To be compared with the source-side `extractText`. -/
def specTextConcat : List MsgPart → String
  | [] => ""
  | p :: ps =>
    (if p.type = some "text" then p.text.getD "" else "") ++ specTextConcat ps

/-- Both stores only grow: every session key survives, and every per-session
message list extends (as a prefix) to the new one. -/
def storeGrows (σ σ' : ServerState) : Prop :=
  (∀ k, dictHas σ.sessions k = true → dictHas σ'.sessions k = true) ∧
  (∀ k l, dictGet σ.messages k = some l →
    ∃ l', dictGet σ'.messages k = some l' ∧ l <+: l')

/-- The store invariant: the two dictionaries have the same keys (in the
same insertion order), every key is below the uuid counter, and the
`messages` list embedded in each stored session object is empty (messages
are only ever appended to the separate `messages` dictionary). -/
def wf (σ : ServerState) : Prop :=
  keys σ.sessions = keys σ.messages ∧
  (∀ k ∈ keys σ.sessions, k < σ.nextUuid) ∧
  (∀ p ∈ σ.sessions, p.2.msgs = ([] : List Message))

/-- The concrete scenario used by witnesses: one session created at server
start. -/
def demoState : ServerState := (create_session initState none).2

/-- A valid prompt body carrying the single text part `'hi'`. -/
def hiBody : Option PromptBody := some ⟨some [⟨some "text", some "hi"⟩]⟩

/-- The state after creating one session and sending `'hi'` to it. -/
def hiState : ServerState := (send_prompt demoState 0 hiBody).2

theorem keys_nil {α : Type} : keys ([] : List (Nat × α)) = [] := rfl

theorem keys_cons {α : Type} (p : Nat × α) (d : List (Nat × α)) :
    keys (p :: d) = p.1 :: keys d := rfl

theorem dictHas_true_iff {α : Type} (d : List (Nat × α)) (n : Nat) :
    dictHas d n = true ↔ n ∈ keys d := by
  induction d with
  | nil => simp [dictHas, keys_nil]
  | cons p d ih =>
    obtain ⟨k, v⟩ := p
    rw [keys_cons]
    by_cases h : k = n
    · simp [dictHas, h]
    · simp [dictHas, h, Ne.symm h, ih]

theorem dictHas_false_iff {α : Type} (d : List (Nat × α)) (n : Nat) :
    dictHas d n = false ↔ n ∉ keys d := by
  rw [← Bool.not_eq_true, not_iff_not]
  exact dictHas_true_iff d n

theorem dictSet_fresh {α : Type} (d : List (Nat × α)) (n : Nat) (v : α)
    (h : dictHas d n = false) : dictSet d n v = d ++ [(n, v)] := by
  induction d with
  | nil => rfl
  | cons p d ih =>
    obtain ⟨k, w⟩ := p
    simp only [dictHas] at h
    by_cases hk : k = n
    · simp [hk] at h
    · simp only [dictSet, if_neg hk, List.cons_append, List.cons.injEq, true_and]
      exact ih (by simpa [hk] using h)

theorem keys_append {α : Type} (d d' : List (Nat × α)) :
    keys (d ++ d') = keys d ++ keys d' := by
  simp [keys]

theorem keys_dictAppendAt {α : Type} (d : List (Nat × List α)) (n : Nat) (m : α) :
    keys (dictAppendAt d n m) = keys d := by
  induction d with
  | nil => rfl
  | cons p d ih =>
    obtain ⟨k, l⟩ := p
    by_cases hk : k = n <;> simp [dictAppendAt, keys_cons, hk, ih]

theorem dictGet_dictSet_self {α : Type} (d : List (Nat × α)) (n : Nat) (v : α) :
    dictGet (dictSet d n v) n = some v := by
  induction d with
  | nil => simp [dictSet, dictGet]
  | cons p d ih =>
    obtain ⟨k, w⟩ := p
    by_cases hk : k = n <;> simp [dictSet, dictGet, hk, ih]

theorem dictGet_append_left {α : Type} (d d' : List (Nat × α)) (n : Nat) (v : α)
    (h : dictGet d n = some v) : dictGet (d ++ d') n = some v := by
  induction d with
  | nil => simp [dictGet] at h
  | cons p d ih =>
    obtain ⟨k, w⟩ := p
    by_cases hk : k = n
    · simpa [dictGet, hk] using h
    · simp only [dictGet, if_neg hk] at h
      simpa [dictGet, hk] using ih h

theorem dictGet_mem_values {α : Type} (d : List (Nat × α)) (n : Nat) (v : α)
    (h : dictGet d n = some v) : v ∈ d.map (·.2) := by
  induction d with
  | nil => simp [dictGet] at h
  | cons p d ih =>
    obtain ⟨k, w⟩ := p
    by_cases hk : k = n
    · simp [dictGet, hk] at h
      simp [h]
    · simp only [dictGet, if_neg hk] at h
      simp [ih h]

theorem dictGet_dictAppendAt_self {α : Type} (d : List (Nat × List α))
    (n : Nat) (m : α) (l : List α) (h : dictGet d n = some l) :
    dictGet (dictAppendAt d n m) n = some (l ++ [m]) := by
  induction d with
  | nil => simp [dictGet] at h
  | cons p d ih =>
    obtain ⟨k, w⟩ := p
    by_cases hk : k = n
    · simp [dictGet, hk] at h
      simp [dictAppendAt, dictGet, hk, h]
    · simp only [dictGet, if_neg hk] at h
      simp [dictAppendAt, dictGet, hk, ih h]

theorem dictGet_dictAppendAt_grows {α : Type} (d : List (Nat × List α))
    (n : Nat) (m : α) (k' : Nat) (l : List α) (h : dictGet d k' = some l) :
    ∃ l', dictGet (dictAppendAt d n m) k' = some l' ∧ l <+: l' := by
  induction d with
  | nil => simp [dictGet] at h
  | cons p d ih =>
    obtain ⟨k, w⟩ := p
    by_cases hk : k = k'
    · subst hk
      have hw : w = l := by simpa [dictGet] using h
      subst hw
      by_cases hn : k = n
      · subst hn
        refine ⟨w ++ [m], ?_, List.prefix_append w [m]⟩
        simp [dictAppendAt, dictGet]
      · refine ⟨w, ?_, List.prefix_refl w⟩
        simp [dictAppendAt, dictGet, hn]
    · have h' : dictGet d k' = some l := by simpa [dictGet, hk] using h
      by_cases hn : k = n
      · subst hn
        refine ⟨l, ?_, List.prefix_refl l⟩
        simp [dictAppendAt, dictGet, hk, h']
      · obtain ⟨l', hget, hpre⟩ := ih h'
        refine ⟨l', ?_, hpre⟩
        simp [dictAppendAt, dictGet, hk, hn, hget]

theorem create_session_eq (σ : ServerState) (titleOpt : Option String) :
    create_session σ titleOpt =
      (⟨σ.nextUuid, titleOpt.getD "New Chat Session", σ.clock⟩,
        { sessions := dictSet σ.sessions σ.nextUuid
            ⟨σ.nextUuid, titleOpt.getD "New Chat Session", σ.clock, []⟩
          messages := dictSet σ.messages σ.nextUuid []
          nextUuid := σ.nextUuid + 1
          clock := σ.clock + 1 }) := rfl

theorem send_prompt_unknown (σ : ServerState) (sid : Nat) (body : Option PromptBody)
    (h : dictHas σ.sessions sid = false) :
    send_prompt σ sid body = (Resp.err "Session not found" 404, σ) := by
  simp [send_prompt, h]

theorem send_prompt_noBody (σ : ServerState) (sid : Nat)
    (h : dictHas σ.sessions sid = true) :
    send_prompt σ sid none = (Resp.err "Invalid request format" 400, σ) := by
  simp [send_prompt, h]

theorem send_prompt_noParts (σ : ServerState) (sid : Nat)
    (h : dictHas σ.sessions sid = true) :
    send_prompt σ sid (some ⟨none⟩) = (Resp.err "Invalid request format" 400, σ) := by
  simp [send_prompt, h]

theorem send_prompt_valid_eq (σ : ServerState) (sid : Nat) (parts : List MsgPart)
    (h : dictHas σ.sessions sid = true) :
    send_prompt σ sid (some ⟨some parts⟩) =
      (Resp.ok (generate_stream (σ.nextUuid + 1)
          (aiResponseContent (extractText parts) sid) (σ.clock + 1)),
        { sessions := σ.sessions
          messages := dictAppendAt σ.messages sid
            ⟨σ.nextUuid, "user", extractText parts, σ.clock⟩
          nextUuid := σ.nextUuid + 2
          clock := σ.clock + 1 + (generate_stream (σ.nextUuid + 1)
            (aiResponseContent (extractText parts) sid) (σ.clock + 1)).length }) := by
  simp [send_prompt, h]

theorem wf_init : wf initState := by
  refine ⟨rfl, ?_, ?_⟩ <;> simp [initState, wf, keys_nil]

theorem wf_create (σ : ServerState) (titleOpt : Option String) (h : wf σ) :
    wf (create_session σ titleOpt).2 := by
  obtain ⟨hkeys, hbound, hmsgs⟩ := h
  have hfresh_s : dictHas σ.sessions σ.nextUuid = false := by
    rw [dictHas_false_iff]
    intro hmem
    exact absurd (hbound _ hmem) (lt_irrefl _)
  have hfresh_m : dictHas σ.messages σ.nextUuid = false := by
    rw [dictHas_false_iff, ← hkeys]
    intro hmem
    exact absurd (hbound _ hmem) (lt_irrefl _)
  rw [create_session_eq]
  refine ⟨?_, ?_, ?_⟩
  · show keys (dictSet σ.sessions σ.nextUuid _) = keys (dictSet σ.messages σ.nextUuid _)
    rw [dictSet_fresh _ _ _ hfresh_s, dictSet_fresh _ _ _ hfresh_m,
      keys_append, keys_append, hkeys]
    simp [keys_cons, keys_nil]
  · intro k hk
    show k < σ.nextUuid + 1
    rw [dictSet_fresh _ _ _ hfresh_s, keys_append] at hk
    rcases List.mem_append.mp hk with hk | hk
    · exact Nat.lt_succ_of_lt (hbound k hk)
    · simp [keys_cons, keys_nil] at hk
      omega
  · intro p hp
    rw [dictSet_fresh _ _ _ hfresh_s] at hp
    rcases List.mem_append.mp hp with hp | hp
    · exact hmsgs p hp
    · simp at hp
      rw [hp]

theorem wf_prompt (σ : ServerState) (sid : Nat) (body : Option PromptBody)
    (h : wf σ) : wf (send_prompt σ sid body).2 := by
  by_cases hs : dictHas σ.sessions sid = false
  · rw [send_prompt_unknown σ sid body hs]
    exact h
  · have hs' : dictHas σ.sessions sid = true := by
      revert hs; cases dictHas σ.sessions sid <;> simp
    obtain ⟨hkeys, hbound, hmsgs⟩ := h
    match body with
    | none =>
      rw [send_prompt_noBody σ sid hs']
      exact ⟨hkeys, hbound, hmsgs⟩
    | some ⟨none⟩ =>
      rw [send_prompt_noParts σ sid hs']
      exact ⟨hkeys, hbound, hmsgs⟩
    | some ⟨some parts⟩ =>
      rw [send_prompt_valid_eq σ sid parts hs']
      refine ⟨?_, ?_, hmsgs⟩
      · show keys σ.sessions = keys (dictAppendAt σ.messages sid _)
        rw [keys_dictAppendAt]
        exact hkeys
      · intro k hk
        show k < σ.nextUuid + 2
        exact Nat.lt_add_right 1 (Nat.lt_succ_of_lt (hbound k hk))

theorem reachable_wf (σ : ServerState) (h : Reachable σ) : wf σ := by
  induction h with
  | init => exact wf_init
  | create σ' titleOpt _ ih => exact wf_create σ' titleOpt ih
  | prompt σ' sid body _ ih => exact wf_prompt σ' sid body ih

theorem streamChunksFrom_length (a t total : Nat) (ws : List String) :
    ∀ i, (streamChunksFrom a t total i ws).length = ws.length := by
  induction ws with
  | nil => intro i; rfl
  | cons w ws ih => intro i; simp [streamChunksFrom, ih]

theorem streamChunksFrom_id_role (a t total : Nat) (ws : List String) :
    ∀ i c, c ∈ streamChunksFrom a t total i ws → c.id = a ∧ c.role = "assistant" := by
  induction ws with
  | nil => intro i c hc; simp [streamChunksFrom] at hc
  | cons w ws ih =>
    intro i c hc
    simp only [streamChunksFrom, List.mem_cons] at hc
    rcases hc with rfl | hc
    · exact ⟨rfl, rfl⟩
    · exact ih (i + 1) c hc

theorem streamChunksFrom_contents (a t total : Nat) (ws : List String) :
    ∀ i, (streamChunksFrom a t total i ws).map Chunk.content =
      ws.map (fun w => w ++ " ") := by
  induction ws with
  | nil => intro i; rfl
  | cons w ws ih => intro i; simp [streamChunksFrom, ih]

theorem streamChunksFrom_is_chunk (a t total : Nat) (ws : List String) :
    ∀ i j, ((streamChunksFrom a t total i ws).getD j dummyChunk).is_chunk =
      decide (j < ws.length ∧ i + j < total - 1) := by
  induction ws with
  | nil =>
    intro i j
    simp [streamChunksFrom, dummyChunk]
  | cons w ws ih =>
    intro i j
    match j with
    | 0 =>
      simp only [streamChunksFrom, List.getD_cons_zero, List.length_cons]
      rw [decide_eq_decide]
      omega
    | j + 1 =>
      simp only [streamChunksFrom, List.getD_cons_succ, List.length_cons]
      rw [ih (i + 1) j, decide_eq_decide]
      omega

theorem generate_stream_length (a t : Nat) (reply : String) :
    (generate_stream a reply t).length = (pySplit reply).length :=
  streamChunksFrom_length a t (pySplit reply).length (pySplit reply) 0

theorem generate_stream_id_role (a t : Nat) (reply : String) (c : Chunk)
    (hc : c ∈ generate_stream a reply t) : c.id = a ∧ c.role = "assistant" :=
  streamChunksFrom_id_role a t (pySplit reply).length (pySplit reply) 0 c hc

theorem generate_stream_contents (a t : Nat) (reply : String) :
    (generate_stream a reply t).map Chunk.content =
      (pySplit reply).map (fun w => w ++ " ") :=
  streamChunksFrom_contents a t (pySplit reply).length (pySplit reply) 0

theorem generate_stream_is_chunk (a t : Nat) (reply : String) (j : Nat) :
    ((generate_stream a reply t).getD j dummyChunk).is_chunk =
      decide (j + 1 < (pySplit reply).length) := by
  unfold generate_stream
  rw [streamChunksFrom_is_chunk, decide_eq_decide]
  omega

theorem extractText_go (parts : List MsgPart) :
    ∀ acc : String,
      parts.foldl
        (fun acc part =>
          if part.type = some "text" then acc ++ part.text.getD "" else acc) acc =
      acc ++ specTextConcat parts := by
  induction parts with
  | nil => intro acc; simp [specTextConcat, String.append_empty]
  | cons p ps ih =>
    intro acc
    simp only [List.foldl_cons, specTextConcat]
    by_cases hp : p.type = some "text"
    · rw [if_pos hp, if_pos hp, ih, String.append_assoc]
    · rw [if_neg hp, if_neg hp, ih, String.empty_append]

/-- The source-side extraction loop agrees with the spec-side description of
the stored content. -/
theorem extractText_eq_spec (parts : List MsgPart) :
    extractText parts = specTextConcat parts := by
  rw [extractText, extractText_go parts "", String.empty_append]

theorem dictHas_append_left {α : Type} (d d' : List (Nat × α)) (n : Nat)
    (h : dictHas d n = true) : dictHas (d ++ d') n = true := by
  rw [dictHas_true_iff] at h ⊢
  rw [keys_append]
  exact List.mem_append_left _ h

theorem send_prompt_snd_cases (σ : ServerState) (sid : Nat)
    (body : Option PromptBody) :
    (send_prompt σ sid body).2 = σ ∨
    (dictHas σ.sessions sid = true ∧ ∃ parts,
      body = some ⟨some parts⟩ ∧
      (send_prompt σ sid body).2 =
        { sessions := σ.sessions
          messages := dictAppendAt σ.messages sid
            ⟨σ.nextUuid, "user", extractText parts, σ.clock⟩
          nextUuid := σ.nextUuid + 2
          clock := σ.clock + 1 + (generate_stream (σ.nextUuid + 1)
            (aiResponseContent (extractText parts) sid) (σ.clock + 1)).length }) := by
  by_cases hs : dictHas σ.sessions sid = false
  · left
    rw [send_prompt_unknown σ sid body hs]
  · have hs' : dictHas σ.sessions sid = true := by
      revert hs; cases dictHas σ.sessions sid <;> simp
    match body with
    | none =>
      left
      rw [send_prompt_noBody σ sid hs']
    | some ⟨none⟩ =>
      left
      rw [send_prompt_noParts σ sid hs']
    | some ⟨some parts⟩ =>
      right
      exact ⟨hs', parts, rfl, by rw [send_prompt_valid_eq σ sid parts hs']⟩

/-- Claim C3: for every session identifier not present in the session store,
both the send-prompt operation and the get-messages operation fail with a
NotFound error, returned as `{error: 'Session not found'}` with HTTP
status 404. -/
theorem unknown_session_not_found (σ : ServerState) (session_id : Nat)
    (body : Option PromptBody) (h : dictHas σ.sessions session_id = false) :
    (send_prompt σ session_id body).1 = Resp.err "Session not found" 404 ∧
    get_messages σ session_id = Resp.err "Session not found" 404 := by
  constructor
  · rw [send_prompt_unknown σ session_id body h]
  · simp [get_messages, h]

/-- Witness for C3: session 7 does not exist at server start, and both
operations return the 404 error object there. -/
theorem unknown_session_not_found_witness :
    dictHas initState.sessions 7 = false ∧
    ((send_prompt initState 7 none).1 = Resp.err "Session not found" 404 ∧
      get_messages initState 7 = Resp.err "Session not found" 404) :=
  ⟨by decide, unknown_session_not_found initState 7 none (by decide)⟩

/-- Claim C4: for every send-prompt request addressed to an existing session
whose body is absent or lacks the `parts` field, the operation fails with an
InvalidInput error, returned as `{error: 'Invalid request format'}` with
HTTP status 400. -/
theorem invalid_body_bad_request (σ : ServerState) (session_id : Nat)
    (body : Option PromptBody) (hs : dictHas σ.sessions session_id = true)
    (hb : body = none ∨ body = some ⟨none⟩) :
    (send_prompt σ session_id body).1 = Resp.err "Invalid request format" 400 := by
  rcases hb with rfl | rfl
  · rw [send_prompt_noBody σ session_id hs]
  · rw [send_prompt_noParts σ session_id hs]

/-- Witness for C4: session 0 exists after one creation, and a bodyless
prompt to it returns the 400 error object. -/
theorem invalid_body_bad_request_witness :
    dictHas demoState.sessions 0 = true ∧
    (send_prompt demoState 0 none).1 = Resp.err "Invalid request format" 400 :=
  ⟨by decide, invalid_body_bad_request demoState 0 none (by decide) (Or.inl rfl)⟩

/-- Claim C9: every failed send-prompt operation (unknown session, or a body
lacking `parts`) leaves the entire server state — the session store and every
session's message sequence — unchanged (single-operation atomicity; the read
operations `get_messages` and `list_sessions` are pure functions of the state
in this embedding). -/
theorem failed_prompt_state_unchanged (σ : ServerState) (session_id : Nat)
    (body : Option PromptBody) (e : String) (s : Nat)
    (h : (send_prompt σ session_id body).1 = Resp.err e s) :
    (send_prompt σ session_id body).2 = σ := by
  rcases send_prompt_snd_cases σ session_id body with hcase | ⟨hs, parts, rfl, hcase⟩
  · exact hcase
  · rw [send_prompt_valid_eq σ session_id parts hs] at h
    exact absurd h (by simp)

/-- Witness for C9: a prompt to the nonexistent session 3 fails and the
state is unchanged. -/
theorem failed_prompt_state_unchanged_witness :
    (send_prompt initState 3 none).1 = Resp.err "Session not found" 404 ∧
    (send_prompt initState 3 none).2 = initState :=
  ⟨by decide,
    failed_prompt_state_unchanged initState 3 none "Session not found" 404 (by decide)⟩

/-- Claim C5: every create-session request succeeds and returns the new
session's identifier, title and creation time, where the title is the one
supplied in the body when present and `"New Chat Session"` otherwise, and
the session is stored with an empty message sequence (both in the session
object and in the separate `messages` store). -/
theorem create_session_spec (σ : ServerState) (titleOpt : Option String) :
    (create_session σ titleOpt).1.title = titleOpt.getD "New Chat Session" ∧
    dictGet (create_session σ titleOpt).2.sessions (create_session σ titleOpt).1.id =
      some ⟨(create_session σ titleOpt).1.id, (create_session σ titleOpt).1.title,
        (create_session σ titleOpt).1.created_at, []⟩ ∧
    dictGet (create_session σ titleOpt).2.messages (create_session σ titleOpt).1.id =
      some ([] : List Message) := by
  rw [create_session_eq]
  exact ⟨rfl, dictGet_dictSet_self σ.sessions σ.nextUuid _,
    dictGet_dictSet_self σ.messages σ.nextUuid _⟩

/-- Claim C6: creating a session from any reachable state returns an
identifier not present in the store, and listing sessions immediately
afterward includes the newly created session.  (`uuid.uuid4()` is modelled
as a fresh-identifier supply; freshness with respect to the store is proved
from the reachability invariant.) -/
theorem create_session_fresh_listed (σ : ServerState) (h : Reachable σ)
    (titleOpt : Option String) :
    dictHas σ.sessions (create_session σ titleOpt).1.id = false ∧
    ∃ s ∈ list_sessions (create_session σ titleOpt).2,
      s.id = (create_session σ titleOpt).1.id ∧
      s.title = (create_session σ titleOpt).1.title := by
  obtain ⟨hkeys, hbound, hmsgs⟩ := reachable_wf σ h
  have hfresh : dictHas σ.sessions σ.nextUuid = false := by
    rw [dictHas_false_iff]
    intro hmem
    exact absurd (hbound _ hmem) (lt_irrefl _)
  rw [create_session_eq]
  refine ⟨hfresh,
    ⟨σ.nextUuid, titleOpt.getD "New Chat Session", σ.clock, []⟩, ?_, rfl, rfl⟩
  show _ ∈ list_sessions _
  rw [list_sessions]
  show _ ∈ (dictSet σ.sessions σ.nextUuid _).map _
  rw [dictSet_fresh _ _ _ hfresh]
  simp

/-- Witness for C6: creating a titled session at server start yields the
fresh identifier 0 and the listing contains it. -/
theorem create_session_fresh_listed_witness :
    dictHas initState.sessions (create_session initState (some "Demo")).1.id = false ∧
    ∃ s ∈ list_sessions (create_session initState (some "Demo")).2,
      s.id = (create_session initState (some "Demo")).1.id ∧
      s.title = (create_session initState (some "Demo")).1.title :=
  create_session_fresh_listed initState Reachable.init (some "Demo")

/-- Claim C8: at every reachable state, the list-sessions operation returns
every known session object (carrying its identifier, title and creation
time), and returns no message bodies: the `messages` list embedded in each
returned session object is empty (user messages live only in the separate
`messages` store, which `list_sessions` never reads). -/
theorem list_sessions_spec (σ : ServerState) (h : Reachable σ) :
    (∀ k s, dictGet σ.sessions k = some s → s ∈ list_sessions σ) ∧
    (∀ s ∈ list_sessions σ, s.msgs = ([] : List Message)) := by
  obtain ⟨hkeys, hbound, hmsgs⟩ := reachable_wf σ h
  constructor
  · intro k s hget
    exact dictGet_mem_values σ.sessions k s hget
  · intro s hs
    rw [list_sessions] at hs
    obtain ⟨p, hp, rfl⟩ := List.mem_map.mp hs
    exact hmsgs p hp

/-- Witness for C8: in the state reached by creating a session and sending
it one prompt, the listing contains every stored session and exposes no
message bodies. -/
theorem list_sessions_spec_witness :
    Reachable hiState ∧
    ((∀ k s, dictGet hiState.sessions k = some s → s ∈ list_sessions hiState) ∧
      (∀ s ∈ list_sessions hiState, s.msgs = ([] : List Message))) :=
  ⟨Reachable.prompt demoState 0 hiBody (Reachable.create initState none Reachable.init),
    list_sessions_spec hiState
      (Reachable.prompt demoState 0 hiBody (Reachable.create initState none Reachable.init))⟩

/-- Claim C10: at every reachable state the two stores hold exactly the same
keys; create-session appends one identical fresh key to both stores;
send-prompt leaves the key sets unchanged and only appends to one existing
key's message list; and under both mutating operations the stores only grow
(no session or message is ever removed).  The read operations are pure
functions of the state in this embedding and mutate nothing. -/
theorem stores_aligned_and_grow (σ : ServerState) (h : Reachable σ) :
    keys σ.sessions = keys σ.messages ∧
    (∀ titleOpt,
      keys (create_session σ titleOpt).2.sessions =
        keys σ.sessions ++ [(create_session σ titleOpt).1.id] ∧
      keys (create_session σ titleOpt).2.messages =
        keys σ.messages ++ [(create_session σ titleOpt).1.id] ∧
      storeGrows σ (create_session σ titleOpt).2) ∧
    (∀ session_id body,
      keys (send_prompt σ session_id body).2.sessions = keys σ.sessions ∧
      keys (send_prompt σ session_id body).2.messages = keys σ.messages ∧
      storeGrows σ (send_prompt σ session_id body).2) := by
  obtain ⟨hkeys, hbound, hmsgs⟩ := reachable_wf σ h
  have hfresh_s : dictHas σ.sessions σ.nextUuid = false := by
    rw [dictHas_false_iff]
    intro hmem
    exact absurd (hbound _ hmem) (lt_irrefl _)
  have hfresh_m : dictHas σ.messages σ.nextUuid = false := by
    rw [dictHas_false_iff, ← hkeys]
    intro hmem
    exact absurd (hbound _ hmem) (lt_irrefl _)
  refine ⟨hkeys, ?_, ?_⟩
  · intro titleOpt
    rw [create_session_eq]
    refine ⟨?_, ?_, ?_, ?_⟩
    · show keys (dictSet σ.sessions σ.nextUuid _) = _
      rw [dictSet_fresh _ _ _ hfresh_s, keys_append, keys_cons, keys_nil]
    · show keys (dictSet σ.messages σ.nextUuid _) = _
      rw [dictSet_fresh _ _ _ hfresh_m, keys_append, keys_cons, keys_nil]
    · intro k hk
      show dictHas (dictSet σ.sessions σ.nextUuid _) k = true
      rw [dictSet_fresh _ _ _ hfresh_s]
      exact dictHas_append_left σ.sessions _ k hk
    · intro k l hl
      refine ⟨l, ?_, List.prefix_refl l⟩
      show dictGet (dictSet σ.messages σ.nextUuid _) k = some l
      rw [dictSet_fresh _ _ _ hfresh_m]
      exact dictGet_append_left σ.messages _ k l hl
  · intro session_id body
    rcases send_prompt_snd_cases σ session_id body with hcase | ⟨hs, parts, hbody, hcase⟩
    · rw [hcase]
      exact ⟨rfl, rfl, fun k hk => hk, fun k l hl => ⟨l, hl, List.prefix_refl l⟩⟩
    · rw [hcase]
      refine ⟨rfl, ?_, fun k hk => hk, ?_⟩
      · show keys (dictAppendAt σ.messages session_id _) = _
        rw [keys_dictAppendAt]
      · intro k l hl
        exact dictGet_dictAppendAt_grows σ.messages session_id _ k l hl

/-- Witness for C10: the aligned-keys and growth properties at the state
holding one freshly created session. -/
theorem stores_aligned_and_grow_witness :
    Reachable demoState ∧
    (keys demoState.sessions = keys demoState.messages ∧
      (∀ titleOpt,
        keys (create_session demoState titleOpt).2.sessions =
          keys demoState.sessions ++ [(create_session demoState titleOpt).1.id] ∧
        keys (create_session demoState titleOpt).2.messages =
          keys demoState.messages ++ [(create_session demoState titleOpt).1.id] ∧
        storeGrows demoState (create_session demoState titleOpt).2) ∧
      (∀ session_id body,
        keys (send_prompt demoState session_id body).2.sessions =
          keys demoState.sessions ∧
        keys (send_prompt demoState session_id body).2.messages =
          keys demoState.messages ∧
        storeGrows demoState (send_prompt demoState session_id body).2)) :=
  ⟨Reachable.create initState none Reachable.init,
    stores_aligned_and_grow demoState (Reachable.create initState none Reachable.init)⟩

/-- Claim C7: for every valid send-prompt request, the stored user message's
content is the concatenation, in order, of the `text` fields of exactly the
parts whose `type` is `'text'` (`specTextConcat`, written from the spec's
words): parts of other types contribute nothing and a text part missing its
`text` field contributes the empty string.  The message is appended to the
session's existing message list with role `'user'`. -/
theorem stored_user_message_content (σ : ServerState) (session_id : Nat)
    (parts : List MsgPart) (l0 : List Message)
    (hs : dictHas σ.sessions session_id = true)
    (hm : dictGet σ.messages session_id = some l0) :
    ∃ m : Message,
      dictGet (send_prompt σ session_id (some ⟨some parts⟩)).2.messages session_id =
        some (l0 ++ [m]) ∧
      m.role = "user" ∧
      m.content = specTextConcat parts := by
  rw [send_prompt_valid_eq σ session_id parts hs]
  exact ⟨⟨σ.nextUuid, "user", extractText parts, σ.clock⟩,
    dictGet_dictAppendAt_self σ.messages session_id _ l0 hm,
    rfl, extractText_eq_spec parts⟩

/-- Witness for C7: a prompt mixing a text part, an image part, a text part
with no `text` field, a typeless part, and another text part stores a user
message whose content `"ab"` is the concatenation of only the text-typed
parts' texts. -/
theorem stored_user_message_content_witness :
    dictHas demoState.sessions 0 = true ∧
    dictGet demoState.messages 0 = some ([] : List Message) ∧
    (∃ m : Message,
      dictGet (send_prompt demoState 0 (some ⟨some
        [⟨some "text", some "a"⟩, ⟨some "image", some "X"⟩, ⟨some "text", none⟩,
          ⟨none, some "Y"⟩, ⟨some "text", some "b"⟩]⟩)).2.messages 0 =
        some ([] ++ [m]) ∧
      m.role = "user" ∧
      m.content = specTextConcat
        [⟨some "text", some "a"⟩, ⟨some "image", some "X"⟩, ⟨some "text", none⟩,
          ⟨none, some "Y"⟩, ⟨some "text", some "b"⟩]) ∧
    specTextConcat
        [⟨some "text", some "a"⟩, ⟨some "image", some "X"⟩, ⟨some "text", none⟩,
          ⟨none, some "Y"⟩, ⟨some "text", some "b"⟩] = "ab" :=
  ⟨by decide, by decide,
    stored_user_message_content demoState 0
      [⟨some "text", some "a"⟩, ⟨some "image", some "X"⟩, ⟨some "text", none⟩,
        ⟨none, some "Y"⟩, ⟨some "text", some "b"⟩] [] (by decide) (by decide),
    by decide⟩

/-- Claim C1, counterexample: after creating a session and completing one
successful send-prompt exchange (`'hi'` to session 0), get-messages does NOT
return two messages — the handler stores only the user message and never
appends the streamed assistant reply to the store. -/
theorem one_exchange_not_two_messages :
    ¬ ∃ m₁ m₂ : Message, get_messages hiState 0 = Resp.ok [m₁, m₂] := by
  intro hex
  obtain ⟨m₁, m₂, hmm⟩ := hex
  have e : get_messages hiState 0 = Resp.ok [⟨1, "user", "hi", 1⟩] := by decide
  rw [e] at hmm
  simp at hmm

/-- Claim C1 (amended): for every session holding no messages, after one
successful send-prompt exchange on that session, get-messages returns
exactly ONE message, whose role is `'user'` and whose content is the
submitted text; the synthetic assistant reply is streamed to the caller but
never stored. -/
theorem one_exchange_single_user_message (σ : ServerState) (session_id : Nat)
    (parts : List MsgPart)
    (hs : dictHas σ.sessions session_id = true)
    (hm : dictGet σ.messages session_id = some ([] : List Message)) :
    ∃ m : Message,
      get_messages (send_prompt σ session_id (some ⟨some parts⟩)).2 session_id =
        Resp.ok [m] ∧
      m.role = "user" ∧ m.content = extractText parts := by
  rw [send_prompt_valid_eq σ session_id parts hs]
  refine ⟨⟨σ.nextUuid, "user", extractText parts, σ.clock⟩, ?_, rfl, rfl⟩
  have h2 := dictGet_dictAppendAt_self σ.messages session_id
    (⟨σ.nextUuid, "user", extractText parts, σ.clock⟩ : Message) [] hm
  simp [get_messages, hs, h2]

/-- Witness for C1 (amended): the `'hi'` exchange on the fresh session 0
leaves exactly one stored message, with role `'user'` and content `'hi'`. -/
theorem one_exchange_single_user_message_witness :
    dictHas demoState.sessions 0 = true ∧
    dictGet demoState.messages 0 = some ([] : List Message) ∧
    (∃ m : Message,
      get_messages (send_prompt demoState 0 (some ⟨some [⟨some "text", some "hi"⟩]⟩)).2 0 =
        Resp.ok [m] ∧
      m.role = "user" ∧ m.content = extractText [⟨some "text", some "hi"⟩]) :=
  ⟨by decide, by decide,
    one_exchange_single_user_message demoState 0 [⟨some "text", some "hi"⟩]
      (by decide) (by decide)⟩

/-- Claim C2, counterexample: for the valid prompt text `'a  b'` (two
spaces) to the existing session 0, the concatenation of the streamed
fragments' contents equals neither the synthetic reply text nor the reply
text with a trailing space: `str.split()` collapses the whitespace run, so
the double space inside the echoed text is lost. -/
theorem stream_concat_whitespace_counterexample :
    (∃ chunks : List Chunk,
      (send_prompt demoState 0 (some ⟨some [⟨some "text", some "a  b"⟩]⟩)).1 =
        Resp.ok chunks) ∧
    streamedText (send_prompt demoState 0 (some ⟨some [⟨some "text", some "a  b"⟩]⟩)).1 ≠
      aiResponseContent "a  b" 0 ∧
    streamedText (send_prompt demoState 0 (some ⟨some [⟨some "text", some "a  b"⟩]⟩)).1 ≠
      aiResponseContent "a  b" 0 ++ " " ∧
    extractText [⟨some "text", some "a  b"⟩] = "a  b" := by
  refine ⟨⟨_, rfl⟩, by decide, by decide, by decide⟩

/-- Claim C2 (amended): for every valid prompt to an existing session, the
streamed response is a finite sequence with one fragment per
whitespace-separated word of the synthetic reply, all fragments sharing the
one response-message identifier and role `'assistant'`, `is_chunk` true on
every fragment except false on the last, and the fragments' content fields
are exactly the whitespace-separated words of the synthetic reply, each
followed by one space — so their concatenation is the reply with whitespace
runs collapsed to single spaces and one trailing space appended (for the
prompt `'hi'` to session 0 this is the spec's quoted string, as checked in
the witness). -/
theorem valid_prompt_stream_spec (σ : ServerState) (session_id : Nat)
    (parts : List MsgPart) (hs : dictHas σ.sessions session_id = true) :
    ∃ chunks : List Chunk,
      (send_prompt σ session_id (some ⟨some parts⟩)).1 = Resp.ok chunks ∧
      chunks.length = (replyWords parts session_id).length ∧
      (∀ c ∈ chunks, c.id = σ.nextUuid + 1 ∧ c.role = "assistant") ∧
      (∀ j, (chunks.getD j dummyChunk).is_chunk = decide (j + 1 < chunks.length)) ∧
      chunks.map Chunk.content = (replyWords parts session_id).map (fun w => w ++ " ") ∧
      String.join (chunks.map Chunk.content) =
        String.join ((replyWords parts session_id).map (fun w => w ++ " ")) := by
  rw [send_prompt_valid_eq σ session_id parts hs]
  refine ⟨generate_stream (σ.nextUuid + 1)
      (aiResponseContent (extractText parts) session_id) (σ.clock + 1),
    rfl, ?_, ?_, ?_, ?_, ?_⟩
  · exact generate_stream_length _ _ _
  · exact generate_stream_id_role _ _ _
  · intro j
    rw [generate_stream_length]
    exact generate_stream_is_chunk _ _ _ j
  · exact generate_stream_contents _ _ _
  · exact congrArg String.join (generate_stream_contents _ _ _)

/-- Witness for C2 (amended): the `'hi'` prompt to session 0 satisfies the
structural properties, and there the concatenation of all fragment contents
is exactly the spec's quoted string (with its trailing space). -/
theorem valid_prompt_stream_spec_witness :
    dictHas demoState.sessions 0 = true ∧
    (∃ chunks : List Chunk,
      (send_prompt demoState 0 (some ⟨some [⟨some "text", some "hi"⟩]⟩)).1 =
        Resp.ok chunks ∧
      chunks.length = (replyWords [⟨some "text", some "hi"⟩] 0).length ∧
      (∀ c ∈ chunks, c.id = demoState.nextUuid + 1 ∧ c.role = "assistant") ∧
      (∀ j, (chunks.getD j dummyChunk).is_chunk = decide (j + 1 < chunks.length)) ∧
      chunks.map Chunk.content =
        (replyWords [⟨some "text", some "hi"⟩] 0).map (fun w => w ++ " ") ∧
      String.join (chunks.map Chunk.content) =
        String.join ((replyWords [⟨some "text", some "hi"⟩] 0).map (fun w => w ++ " "))) ∧
    String.join ((replyWords [⟨some "text", some "hi"⟩] 0).map (fun w => w ++ " ")) =
      "I received your message: 'hi'. This is a mock AI response for testing purposes. The message was sent to session 0. " :=
  ⟨by decide,
    valid_prompt_stream_spec demoState 0 [⟨some "text", some "hi"⟩] (by decide),
    by decide⟩
